import Mathlib

/-!
Verification development for the Windows Defender CheckMK plugin
(agent_based/windows_defender.py, Check API V2).

The Python source is shallowly embedded: pure functions become Lean
functions, the generator-based check functions become functions returning
lists of outputs, machine floats for times/ages become Int seconds
(sub-second fractions never influence any checked property), and fallible
parsing returns Option.

External library functions used by the source (the Python stdlib
time.strptime / time.mktime and the cmk framework check_levels renderer)
are modelled from their documented behavior, as noted on each definition.
Human-readable message strings are modelled structurally: each message
constructor carries exactly the data interpolated into the source
f-string, keeping the framework string renderer abstract.
-/

namespace WindowsDefender

/-- Severity of one emitted finding, mirroring cmk.agent_based.v2.State
(OK / WARN / CRIT / UNKNOWN). -/
inductive State
  | ok
  | warn
  | crit
  | unknown
deriving DecidableEq, Repr

/-- Structured stand-in for the message strings produced by the source.
Each constructor records exactly the data the corresponding Python
f-string interpolates. -/
inductive Summary
  | ageUnknown (label : String)
  | levelsMessage (label : String) (value : Int) (levels : Option (Int × Int))
  | serviceUnknown (desc : String)
  | serviceMismatch (desc : String) (current expected : String)
  | allServicesOk (count : Nat)
  | neverExecuted (label : String) (warn crit : Int)
  | versionsNotice (items : List String)
  | infoNotice (items : List String)
deriving DecidableEq, Repr

/-- One element of the check-function output stream: a Result (state plus
message) or a Metric (name plus value). -/
inductive Output
  | result (state : State) (summary : Summary)
  | metric (name : String) (value : Int)
deriving DecidableEq, Repr

/-- State carried by a result output, none for a metric. -/
def stateOf : Output → Option State
  | .result st _ => some st
  | .metric _ _ => none

/-- LevelsType from the source: a ("fixed", (warn, crit)) pair or
("no_levels", None); the surrounding Option models the Python None /
absent-key case. -/
inductive LevelsSpec
  | fixed (warn crit : Int)
  | no_levels
deriving DecidableEq, Repr

/-- WindowsDefenderParams from the source (TypedDict, total=False): every
key is optional, so every field is an Option. Service expectations are
the raw strings "enabled" / "disabled" exactly as in the source. -/
structure Params where
  date_format : Option String
  antispyware_signature_levels : Option LevelsSpec
  antivirus_signature_levels : Option LevelsSpec
  nis_signature_levels : Option LevelsSpec
  full_scan_levels : Option LevelsSpec
  quick_scan_levels : Option LevelsSpec
  am_service_expected : Option String
  behavior_monitor_expected : Option String
  antispyware_expected : Option String
  antivirus_expected : Option String
  nis_expected : Option String
  realtime_protection_expected : Option String
  onaccess_protection_expected : Option String
deriving DecidableEq, Repr

/-- params.get(key) for the five LevelsType keys. -/
def Params.getLevels (p : Params) (key : String) : Option LevelsSpec :=
  if key = "AntispywareSignatureLastUpdated" then p.antispyware_signature_levels
  else if key = "AntivirusSignatureLastUpdated" then p.antivirus_signature_levels
  else if key = "NISSignatureLastUpdated" then p.nis_signature_levels
  else if key = "FullScanEndTime" then p.full_scan_levels
  else if key = "QuickScanEndTime" then p.quick_scan_levels
  else none

/-- params.get(key) for the seven service-state keys. -/
def Params.getService (p : Params) (key : String) : Option String :=
  if key = "AMServiceEnabled" then p.am_service_expected
  else if key = "BehaviorMonitorEnabled" then p.behavior_monitor_expected
  else if key = "AntispywareEnabled" then p.antispyware_expected
  else if key = "AntivirusEnabled" then p.antivirus_expected
  else if key = "NISEnabled" then p.nis_expected
  else if key = "RealTimeProtectionEnabled" then p.realtime_protection_expected
  else if key = "OnAccessProtectionEnabled" then p.onaccess_protection_expected
  else none

/-- WindowsDefenderSection from the source: the parsed snapshot.
Timestamps stay raw strings; booleans are tri-state via Option Bool. -/
structure WindowsDefenderSection where
  am_engine_version : Option String
  am_product_version : Option String
  am_service_version : Option String
  nis_engine_version : Option String
  antispyware_signature_version : Option String
  antivirus_signature_version : Option String
  nis_signature_version : Option String
  antispyware_signature_last_updated : Option String
  antivirus_signature_last_updated : Option String
  nis_signature_last_updated : Option String
  full_scan_end_time : Option String
  quick_scan_end_time : Option String
  am_service_enabled : Option Bool
  behavior_monitor_enabled : Option Bool
  antispyware_enabled : Option Bool
  antivirus_enabled : Option Bool
  nis_enabled : Option Bool
  realtime_protection_enabled : Option Bool
  onaccess_protection_enabled : Option Bool
  am_running_mode : Option String
  computer_state : Option String
  is_tamper_protected : Option Bool
  is_virtual_machine : Option Bool
deriving DecidableEq, Repr

/-- Python str whitespace as used by str.strip and the \s regex class
(restricted to the four characters that can occur in agent output). -/
def pyIsSpace (c : Char) : Bool :=
  c == ' ' || c == '\t' || c == '\n' || c == '\r'

/-- Drop leading Python whitespace from a character list. -/
def dropLeadingWs : List Char → List Char
  | [] => []
  | c :: rest => if pyIsSpace c then dropLeadingWs rest else c :: rest

/-- Python str.strip(): drop whitespace from both ends. -/
def pyStrip (s : List Char) : List Char :=
  (dropLeadingWs (dropLeadingWs s.reverse).reverse)

/-- str.strip() on a String. -/
def pyStripS (s : String) : String :=
  String.mk (pyStrip s.data)

/-- One strptime directive of the format strings used by the source. -/
inductive Dir
  | lit (c : Char)
  | ws
  | dayD
  | monD
  | yearD
  | hour24D
  | hour12D
  | minuteD
  | secondD
  | ampmD
deriving DecidableEq, Repr

/-- A strptime format: a list of directives. -/
abbrev Fmt := List Dir

/-- Format string d.m.Y H:M:S (European with dots, e.g. 25.02.2021 22:37:07). -/
def fmt_eu_dots : Fmt :=
  [.dayD, .lit '.', .monD, .lit '.', .yearD, .ws, .hour24D, .lit ':', .minuteD, .lit ':', .secondD]

/-- Format string m/d/Y I:M:S p (US with AM/PM, e.g. 11/18/2021 10:38:19 PM). -/
def fmt_us_ampm : Fmt :=
  [.monD, .lit '/', .dayD, .lit '/', .yearD, .ws, .hour12D, .lit ':', .minuteD, .lit ':', .secondD, .ws, .ampmD]

/-- Format string m/d/Y H:M:S (US 24h, e.g. 11/18/2021 22:38:19). -/
def fmt_us_24h : Fmt :=
  [.monD, .lit '/', .dayD, .lit '/', .yearD, .ws, .hour24D, .lit ':', .minuteD, .lit ':', .secondD]

/-- Format string d/m/Y H:M:S (European with slashes). -/
def fmt_eu_slash : Fmt :=
  [.dayD, .lit '/', .monD, .lit '/', .yearD, .ws, .hour24D, .lit ':', .minuteD, .lit ':', .secondD]

/-- Format string d/m/Y I:M:S p (European with AM/PM). -/
def fmt_eu_slash_ampm : Fmt :=
  [.dayD, .lit '/', .monD, .lit '/', .yearD, .ws, .hour12D, .lit ':', .minuteD, .lit ':', .secondD, .ws, .ampmD]

/-- Format string Y-m-d H:M:S (ISO with space). -/
def fmt_iso_space : Fmt :=
  [.yearD, .lit '-', .monD, .lit '-', .dayD, .ws, .hour24D, .lit ':', .minuteD, .lit ':', .secondD]

/-- Format string Y-m-dTH:M:S (ISO with T separator). -/
def fmt_iso_t : Fmt :=
  [.yearD, .lit '-', .monD, .lit '-', .dayD, .lit 'T', .hour24D, .lit ':', .minuteD, .lit ':', .secondD]

/-- DATE_FORMAT_CONFIGS from the source, with dict .get(date_format,
DATE_FORMAT_CONFIGS["eu"]) fallback folded in, exactly as consumed by
the timestamp parser. -/
def DATE_FORMAT_CONFIGS (date_format : String) : List Fmt :=
  if date_format = "us" then [fmt_us_ampm, fmt_us_24h]
  else if date_format = "eu" then [fmt_eu_dots, fmt_us_ampm, fmt_eu_slash, fmt_eu_slash_ampm]
  else if date_format = "iso" then [fmt_iso_space, fmt_iso_t]
  else [fmt_eu_dots, fmt_us_ampm, fmt_eu_slash, fmt_eu_slash_ampm]

/-- Numeric value of an ASCII digit. -/
def digitVal (c : Char) : Option Nat :=
  if c.isDigit then some (c.toNat - 48) else none

/-- Match a one-or-two-digit number the way the CPython strptime regex
alternation does for a bounded field: the two-digit alternatives are
tried first (accepted when valid2 holds of the value), then the
one-digit alternative (accepted when valid1 holds). In every format of
this plugin a numeric field is followed by a non-digit, so greedy
matching without backtracking coincides with the regex. -/
def num2or1 (valid2 valid1 : Nat → Bool) : List Char → Option (Nat × List Char)
  | [] => none
  | c1 :: rest1 =>
    match digitVal c1 with
    | none => none
    | some a =>
      match rest1 with
      | [] => if valid1 a then some (a, []) else none
      | c2 :: rest2 =>
        match digitVal c2 with
        | some b =>
          if valid2 (10 * a + b) then some (10 * a + b, rest2)
          else if valid1 a then some (a, rest1) else none
        | none => if valid1 a then some (a, rest1) else none

/-- Match exactly four digits (the %Y directive). -/
def num4 : List Char → Option (Nat × List Char)
  | c1 :: c2 :: c3 :: c4 :: rest =>
    match digitVal c1, digitVal c2, digitVal c3, digitVal c4 with
    | some a, some b, some c, some d => some (1000 * a + 100 * b + 10 * c + d, rest)
    | _, _, _, _ => none
  | _ => none

/-- Match one or more whitespace characters (whitespace in a strptime
format is compiled to the regex \s+). -/
def skipWs1 : List Char → Option (List Char)
  | [] => none
  | c :: rest => if pyIsSpace c then some (dropLeadingWs rest) else none

/-- Match AM or PM case-insensitively (the %p directive under the C
locale with IGNORECASE); true means PM. -/
def parseAmpm : List Char → Option (Bool × List Char)
  | c1 :: c2 :: rest =>
    if (c1 == 'A' || c1 == 'a') && (c2 == 'M' || c2 == 'm') then some (false, rest)
    else if (c1 == 'P' || c1 == 'p') && (c2 == 'M' || c2 == 'm') then some (true, rest)
    else none
  | _ => none

/-- Broken-down time collected by strptime, with the CPython defaults. -/
structure RawTm where
  year : Nat
  month : Nat
  day : Nat
  hour : Nat
  minute : Nat
  second : Nat
  ampm : Option Bool
deriving DecidableEq, Repr

/-- strptime defaults: 1900-01-01 00:00:00. -/
def defaultTm : RawTm :=
  { year := 1900, month := 1, day := 1, hour := 0, minute := 0, second := 0, ampm := none }

/-- Run a directive list against the input, mirroring the CPython
strptime regex: the whole input must be consumed (otherwise
"unconverted data remains" raises ValueError), literals match
case-insensitively, bounded numeric fields match one or two digits.
Modelled from the documented CPython _strptime behavior, since the
Python stdlib is not part of this repository. -/
def runDirs : List Dir → List Char → RawTm → Option RawTm
  | [], s, tm => if s = [] then some tm else none
  | d :: ds, s, tm =>
    match d with
    | .lit c =>
      match s with
      | [] => none
      | c1 :: rest => if c.toLower == c1.toLower then runDirs ds rest tm else none
    | .ws =>
      match skipWs1 s with
      | some rest => runDirs ds rest tm
      | none => none
    | .dayD =>
      match num2or1 (fun v => 1 ≤ v && v ≤ 31) (fun v => 1 ≤ v && v ≤ 9) s with
      | some (v, rest) => runDirs ds rest { tm with day := v }
      | none => none
    | .monD =>
      match num2or1 (fun v => 1 ≤ v && v ≤ 12) (fun v => 1 ≤ v && v ≤ 9) s with
      | some (v, rest) => runDirs ds rest { tm with month := v }
      | none => none
    | .yearD =>
      match num4 s with
      | some (v, rest) => runDirs ds rest { tm with year := v }
      | none => none
    | .hour24D =>
      match num2or1 (fun v => v ≤ 23) (fun v => v ≤ 9) s with
      | some (v, rest) => runDirs ds rest { tm with hour := v }
      | none => none
    | .hour12D =>
      match num2or1 (fun v => 1 ≤ v && v ≤ 12) (fun v => 1 ≤ v && v ≤ 9) s with
      | some (v, rest) => runDirs ds rest { tm with hour := v }
      | none => none
    | .minuteD =>
      match num2or1 (fun v => v ≤ 59) (fun v => v ≤ 9) s with
      | some (v, rest) => runDirs ds rest { tm with minute := v }
      | none => none
    | .secondD =>
      match num2or1 (fun v => v ≤ 61) (fun v => v ≤ 9) s with
      | some (v, rest) => runDirs ds rest { tm with second := v }
      | none => none
    | .ampmD =>
      match parseAmpm s with
      | some (pm, rest) => runDirs ds rest { tm with ampm := some pm }
      | none => none

/-- Post-process the hour the way CPython strptime combines %I and %p:
12 AM is hour 0, 12 PM stays 12, other PM hours gain 12. -/
def tmHour (tm : RawTm) : Nat :=
  match tm.ampm with
  | none => tm.hour
  | some pm =>
    if pm then (if tm.hour == 12 then 12 else tm.hour + 12)
    else (if tm.hour == 12 then 0 else tm.hour)

/-- Gregorian leap-year test. -/
def isLeapYear (y : Nat) : Bool :=
  (y % 4 == 0 && y % 100 != 0) || y % 400 == 0

/-- Length of a month, leap-aware. -/
def daysInMonth (y m : Nat) : Nat :=
  if m = 2 then (if isLeapYear y then 29 else 28)
  else if m = 4 || m = 6 || m = 9 || m = 11 then 30
  else 31

/-- Days from the civil epoch 1970-01-01 to year/month/day (proleptic
Gregorian, Howard Hinnant's civil-days algorithm). -/
def daysFromCivil (y m d : Int) : Int :=
  let yAdj : Int := if m ≤ 2 then y - 1 else y
  let era : Int := Int.fdiv yAdj 400
  let yoe : Int := yAdj - era * 400
  let doy : Int := Int.fdiv (153 * (if m > 2 then m - 3 else m + 9) + 2) 5 + d - 1
  let doe : Int := yoe * 365 + Int.fdiv yoe 4 - Int.fdiv yoe 100 + doy
  era * 146097 + doe - 719468

/-- Epoch seconds of a broken-down time. Models time.mktime with local
time taken as UTC: the plugin only ever compares epoch values against
the equally local evaluation time, so a fixed zone offset cancels in
every checked property. -/
def mkEpoch (tm : RawTm) : Int :=
  daysFromCivil (tm.year : Int) (tm.month : Int) (tm.day : Int) * 86400
    + (tmHour tm : Int) * 3600 + (tm.minute : Int) * 60 + (tm.second : Int)

/-- time.mktime(time.strptime(s, fmt)) as used by _parse_timestamp:
none exactly when strptime raises ValueError. Beyond the regex match,
CPython strptime validates the assembled date through datetime.date
when computing the julian day, rejecting year 0 and a day of month
beyond the (leap-aware) month length. -/
def strptimeEpoch (f : Fmt) (s : List Char) : Option Int :=
  match runDirs f s defaultTm with
  | some tm =>
    if 1 ≤ tm.year ∧ tm.day ≤ daysInMonth tm.year tm.month then some (mkEpoch tm) else none
  | none => none

/-- The format-trial loop of _parse_timestamp: for each format in order,
on a successful parse compute age = now - parsed epoch and return it if
age is at least -86400; otherwise (parse failure, or age more than one
day in the future) continue with the remaining formats. -/
def tryFormats (now : Int) : List Fmt → List Char → Option Int
  | [], _ => none
  | f :: rest, s =>
    match strptimeEpoch f s with
    | some t => if now - t ≥ -86400 then some (now - t) else tryFormats now rest s
    | none => tryFormats now rest s

/-- _parse_timestamp from the source: empty string is rejected up
front, the input is stripped, and the configured format list is tried
in order. -/
def parse_timestamp (timestamp_str : String) (now : Int) (date_format : String) : Option Int :=
  if timestamp_str = "" then none
  else tryFormats now (DATE_FORMAT_CONFIGS date_format) (pyStrip timestamp_str.data)

/-- _parse_bool from the source: exactly the literals "True" and
"False" parse; anything else is the distinct unknown state. -/
def parse_bool (value : String) : Option Bool :=
  if value = "True" then some true
  else if value = "False" then some false
  else none

/-- _extract_levels_tuple from the source, on the typed LevelsType. -/
def extract_levels_tuple (levels : Option LevelsSpec) : Option (Int × Int) :=
  match levels with
  | some (.fixed warn crit) => some (warn, crit)
  | some .no_levels => none
  | none => none

/-- Key/value pairs surviving the parser's line loop: a line contributes
a pair exactly when it has at least two fields; the key is the stripped
first field and the value rejoins every remaining field with the
separator character before stripping. -/
def rawPairs (string_table : List (List String)) : List (String × String) :=
  string_table.filterMap fun line =>
    match line with
    | k :: v :: rest => some (pyStripS k, pyStripS (String.intercalate ":" (v :: rest)))
    | _ => none

/-- Dictionary lookup over the collected pairs; a later occurrence of a
key overwrites an earlier one, as in the Python dict build. -/
def rawGet (raw : List (String × String)) (key : String) : Option String :=
  raw.foldl (fun acc p => if p.1 = key then some p.2 else acc) none

/-- raw.get(key, "") as used for the boolean fields. -/
def rawGetD (raw : List (String × String)) (key : String) : String :=
  (rawGet raw key).getD ""

/-- parse_windows_defender from the source: returns none for an empty
table and when no line yields a key/value pair, else the snapshot. -/
def parse_windows_defender (string_table : List (List String)) : Option WindowsDefenderSection :=
  if string_table = [] then none
  else
    let raw := rawPairs string_table
    if raw = [] then none
    else some
      { am_engine_version := rawGet raw "AMEngineVersion"
        am_product_version := rawGet raw "AMProductVersion"
        am_service_version := rawGet raw "AMServiceVersion"
        nis_engine_version := rawGet raw "NISEngineVersion"
        antispyware_signature_version := rawGet raw "AntispywareSignatureVersion"
        antivirus_signature_version := rawGet raw "AntivirusSignatureVersion"
        nis_signature_version := rawGet raw "NISSignatureVersion"
        antispyware_signature_last_updated := rawGet raw "AntispywareSignatureLastUpdated"
        antivirus_signature_last_updated := rawGet raw "AntivirusSignatureLastUpdated"
        nis_signature_last_updated := rawGet raw "NISSignatureLastUpdated"
        full_scan_end_time := rawGet raw "FullScanEndTime"
        quick_scan_end_time := rawGet raw "QuickScanEndTime"
        am_service_enabled := parse_bool (rawGetD raw "AMServiceEnabled")
        behavior_monitor_enabled := parse_bool (rawGetD raw "BehaviorMonitorEnabled")
        antispyware_enabled := parse_bool (rawGetD raw "AntispywareEnabled")
        antivirus_enabled := parse_bool (rawGetD raw "AntivirusEnabled")
        nis_enabled := parse_bool (rawGetD raw "NISEnabled")
        realtime_protection_enabled := parse_bool (rawGetD raw "RealTimeProtectionEnabled")
        onaccess_protection_enabled := parse_bool (rawGetD raw "OnAccessProtectionEnabled")
        am_running_mode := rawGet raw "AMRunningMode"
        computer_state := rawGet raw "ComputerState"
        is_tamper_protected := parse_bool (rawGetD raw "IsTamperProtected")
        is_virtual_machine := parse_bool (rawGetD raw "IsVirtualMachine") }

/-- check_levels from cmk.agent_based.v2 with levels_upper, as invoked
by the source. Modelled from the spec: the cmk framework is not part of
this repository; per spec section 4.2 the state is crit when the value
reaches crit, warn when it reaches warn, ok otherwise, and a metric
carrying the raw value is always emitted. This matches the inline
comparison (signature_age >= crit, elif >= warn) of the V1 check in
src/agent_based/windows_defender.py. The Result precedes the Metric. -/
def check_levels (value : Int) (levels_upper : Option LevelsSpec) (metric_name label : String) : List Output :=
  let lv := extract_levels_tuple levels_upper
  let st :=
    match lv with
    | some (warn, crit) =>
      if value ≥ crit then State.crit else if value ≥ warn then State.warn else State.ok
    | none => State.ok
  [Output.result st (Summary.levelsMessage label value lv), Output.metric metric_name value]

/-- The inline conditional age computation of the check loops:
_parse_timestamp(ts, now, date_format) if timestamp_str else None,
where both None and the empty string are falsy. -/
def ageOf (ts : Option String) (now : Int) (date_format : String) : Option Int :=
  match ts with
  | some s => if s ≠ "" then parse_timestamp s now date_format else none
  | none => none

/-- Loop body of _check_signature_ages for one signature entry. -/
def checkOneSignature (params : Params) (now : Int) (param_key metric_name label : String)
    (ts : Option String) : List Output :=
  let date_format := params.date_format.getD "eu"
  match ageOf ts now date_format with
  | none => [Output.result State.unknown (Summary.ageUnknown label)]
  | some age => check_levels age (params.getLevels param_key) metric_name (label ++ " age")

/-- _check_signature_ages from the source: the three signature entries
in their fixed order. -/
def check_signature_ages (params : Params) (sec : WindowsDefenderSection) (now : Int) : List Output :=
  checkOneSignature params now "AntispywareSignatureLastUpdated" "antispyware_sig_age"
      "AntiSpyware signature" sec.antispyware_signature_last_updated
    ++ checkOneSignature params now "AntivirusSignatureLastUpdated" "antivirus_sig_age"
      "AntiVirus signature" sec.antivirus_signature_last_updated
    ++ checkOneSignature params now "NISSignatureLastUpdated" "nis_sig_age"
      "NIS signature" sec.nis_signature_last_updated

/-- Rendering of a tri-state boolean service value, as in the source. -/
def svcStateStr (b : Bool) : String :=
  if b then "enabled" else "disabled"

/-- params.get(param_key, "enabled") for a service expectation. -/
def expectedOf (params : Params) (key : String) : String :=
  (params.getService key).getD "enabled"

/-- Loop body of _check_service_states for one service: the outputs it
yields, the increment of the issues counter, and the ok_services
entries it appends. -/
def checkOneService (params : Params) (param_key desc : String) (current : Option Bool) :
    List Output × Nat × List String :=
  match current with
  | none => ([Output.result State.unknown (Summary.serviceUnknown desc)], 1, [])
  | some b =>
    if svcStateStr b ≠ expectedOf params param_key then
      ([Output.result State.warn (Summary.serviceMismatch desc (svcStateStr b) (expectedOf params param_key))], 1, [])
    else ([], 0, [desc])

/-- The services table of _check_service_states, in source order. -/
def serviceTable (sec : WindowsDefenderSection) : List (String × String × Option Bool) :=
  [("AMServiceEnabled", "AM Service", sec.am_service_enabled),
   ("BehaviorMonitorEnabled", "Behavior Monitor", sec.behavior_monitor_enabled),
   ("AntispywareEnabled", "Antispyware", sec.antispyware_enabled),
   ("AntivirusEnabled", "Antivirus", sec.antivirus_enabled),
   ("NISEnabled", "NIS", sec.nis_enabled),
   ("RealTimeProtectionEnabled", "RealTimeProtection", sec.realtime_protection_enabled),
   ("OnAccessProtectionEnabled", "OnAccessProtection", sec.onaccess_protection_enabled)]

/-- Per-service findings of _check_service_states, in loop order. -/
def ssOuts (params : Params) (sec : WindowsDefenderSection) : List Output :=
  (checkOneService params "AMServiceEnabled" "AM Service" sec.am_service_enabled).1
    ++ (checkOneService params "BehaviorMonitorEnabled" "Behavior Monitor" sec.behavior_monitor_enabled).1
    ++ (checkOneService params "AntispywareEnabled" "Antispyware" sec.antispyware_enabled).1
    ++ (checkOneService params "AntivirusEnabled" "Antivirus" sec.antivirus_enabled).1
    ++ (checkOneService params "NISEnabled" "NIS" sec.nis_enabled).1
    ++ (checkOneService params "RealTimeProtectionEnabled" "RealTimeProtection" sec.realtime_protection_enabled).1
    ++ (checkOneService params "OnAccessProtectionEnabled" "OnAccessProtection" sec.onaccess_protection_enabled).1

/-- Final value of the issues counter of _check_service_states. -/
def ssIssues (params : Params) (sec : WindowsDefenderSection) : Nat :=
  (checkOneService params "AMServiceEnabled" "AM Service" sec.am_service_enabled).2.1
    + (checkOneService params "BehaviorMonitorEnabled" "Behavior Monitor" sec.behavior_monitor_enabled).2.1
    + (checkOneService params "AntispywareEnabled" "Antispyware" sec.antispyware_enabled).2.1
    + (checkOneService params "AntivirusEnabled" "Antivirus" sec.antivirus_enabled).2.1
    + (checkOneService params "NISEnabled" "NIS" sec.nis_enabled).2.1
    + (checkOneService params "RealTimeProtectionEnabled" "RealTimeProtection" sec.realtime_protection_enabled).2.1
    + (checkOneService params "OnAccessProtectionEnabled" "OnAccessProtection" sec.onaccess_protection_enabled).2.1

/-- Final ok_services list of _check_service_states. -/
def ssOkServices (params : Params) (sec : WindowsDefenderSection) : List String :=
  (checkOneService params "AMServiceEnabled" "AM Service" sec.am_service_enabled).2.2
    ++ (checkOneService params "BehaviorMonitorEnabled" "Behavior Monitor" sec.behavior_monitor_enabled).2.2
    ++ (checkOneService params "AntispywareEnabled" "Antispyware" sec.antispyware_enabled).2.2
    ++ (checkOneService params "AntivirusEnabled" "Antivirus" sec.antivirus_enabled).2.2
    ++ (checkOneService params "NISEnabled" "NIS" sec.nis_enabled).2.2
    ++ (checkOneService params "RealTimeProtectionEnabled" "RealTimeProtection" sec.realtime_protection_enabled).2.2
    ++ (checkOneService params "OnAccessProtectionEnabled" "OnAccessProtection" sec.onaccess_protection_enabled).2.2

/-- _check_service_states from the source: the per-service findings,
followed by the aggregate ok finding exactly when the issues counter
(incremented for unknown values as well as mismatches) stayed zero. -/
def check_service_states (params : Params) (sec : WindowsDefenderSection) : List Output :=
  ssOuts params sec
    ++ (if ssIssues params sec = 0
        then [Output.result State.ok (Summary.allServicesOk (ssOkServices params sec).length)]
        else [])

/-- Whether one services-table entry is known and matches its configured
expectation (the branch of the loop that appends to ok_services). -/
def svcConformsB (params : Params) (t : String × String × Option Bool) : Bool :=
  match t.2.2 with
  | some b => svcStateStr b == expectedOf params t.1
  | none => false

/-- Loop body of _check_scan_ages for one scan entry: skipped entirely
when no levels are configured; a missing or unparseable timestamp
yields a crit finding noting the thresholds plus a zero metric;
otherwise the standard levels comparison. -/
def checkOneScan (params : Params) (now : Int) (param_key metric_name label : String)
    (ts : Option String) : List Output :=
  let date_format := params.date_format.getD "eu"
  match params.getLevels param_key with
  | none => []
  | some levels =>
    match ageOf ts now date_format with
    | none =>
      let wc := (extract_levels_tuple (some levels)).getD (7 * 86400, 14 * 86400)
      [Output.result State.crit (Summary.neverExecuted label wc.1 wc.2),
       Output.metric metric_name 0]
    | some age => check_levels age (some levels) metric_name ("Last " ++ label)

/-- _check_scan_ages from the source: full scan then quick scan. -/
def check_scan_ages (params : Params) (sec : WindowsDefenderSection) (now : Int) : List Output :=
  checkOneScan params now "FullScanEndTime" "full_scan_age" "Full Scan" sec.full_scan_end_time
    ++ checkOneScan params now "QuickScanEndTime" "quick_scan_age" "Quick Scan" sec.quick_scan_end_time

/-- One optional version item: included when the field is truthy in the
Python sense (present and non-empty). -/
def optItem (pre : String) (v : Option String) : List String :=
  match v with
  | some s => if s ≠ "" then [pre ++ s] else []
  | none => []

/-- The versions list built by _yield_version_info, in source order. -/
def versionItems (sec : WindowsDefenderSection) : List String :=
  optItem "AM Engine: " sec.am_engine_version
    ++ optItem "AM Product: " sec.am_product_version
    ++ optItem "NIS Sig: " sec.nis_signature_version
    ++ optItem "AV Sig: " sec.antivirus_signature_version
    ++ optItem "AS Sig: " sec.antispyware_signature_version

/-- One yes/no detail item, included when the flag is not None. -/
def flagItem (pre : String) (v : Option Bool) : List String :=
  match v with
  | some b => [pre ++ (if b then "Yes" else "No")]
  | none => []

/-- The details list built by _yield_version_info, in source order. -/
def infoItems (sec : WindowsDefenderSection) : List String :=
  optItem "Running Mode: " sec.am_running_mode
    ++ flagItem "Tamper Protected: " sec.is_tamper_protected
    ++ flagItem "Virtual Machine: " sec.is_virtual_machine

/-- _yield_version_info from the source: an ok notice for the versions
when any are present, then an ok notice for the details when any are
present; nothing at all otherwise. -/
def yield_version_info (sec : WindowsDefenderSection) : List Output :=
  (if versionItems sec ≠ [] then [Output.result State.ok (Summary.versionsNotice (versionItems sec))] else [])
    ++ (if infoItems sec ≠ [] then [Output.result State.ok (Summary.infoNotice (infoItems sec))] else [])

/-- check_windows_defender from the source, with the wall-clock read
time.time() lifted to the explicit argument now: signature ages, then
service states, then scan ages, then the version/info notices. -/
def check_windows_defender (params : Params) (sec : WindowsDefenderSection) (now : Int) : List Output :=
  check_signature_ages params sec now
    ++ check_service_states params sec
    ++ check_scan_ages params sec now
    ++ yield_version_info sec

/-- WINDOWS_DEFENDER_DEFAULT_LEVELS from the source. -/
def WINDOWS_DEFENDER_DEFAULT_LEVELS : Params :=
  { date_format := some "eu"
    antispyware_signature_levels := some (.fixed (3 * 86400) (7 * 86400))
    antivirus_signature_levels := some (.fixed (2 * 86400) (7 * 86400))
    nis_signature_levels := some (.fixed (5 * 86400) (7 * 86400))
    full_scan_levels := none
    quick_scan_levels := none
    am_service_expected := some "enabled"
    behavior_monitor_expected := some "enabled"
    antispyware_expected := some "enabled"
    antivirus_expected := some "enabled"
    nis_expected := some "enabled"
    realtime_protection_expected := some "enabled"
    onaccess_protection_expected := some "enabled" }

/-- A parameter record with every optional key absent. -/
def emptyParams : Params :=
  { date_format := none
    antispyware_signature_levels := none
    antivirus_signature_levels := none
    nis_signature_levels := none
    full_scan_levels := none
    quick_scan_levels := none
    am_service_expected := none
    behavior_monitor_expected := none
    antispyware_expected := none
    antivirus_expected := none
    nis_expected := none
    realtime_protection_expected := none
    onaccess_protection_expected := none }

/-- A snapshot with every field absent (every raw key missing or
unparseable). -/
def emptySection : WindowsDefenderSection :=
  { am_engine_version := none
    am_product_version := none
    am_service_version := none
    nis_engine_version := none
    antispyware_signature_version := none
    antivirus_signature_version := none
    nis_signature_version := none
    antispyware_signature_last_updated := none
    antivirus_signature_last_updated := none
    nis_signature_last_updated := none
    full_scan_end_time := none
    quick_scan_end_time := none
    am_service_enabled := none
    behavior_monitor_enabled := none
    antispyware_enabled := none
    antivirus_enabled := none
    nis_enabled := none
    realtime_protection_enabled := none
    onaccess_protection_enabled := none
    am_running_mode := none
    computer_state := none
    is_tamper_protected := none
    is_virtual_machine := none }

/-- A snapshot in which all seven monitored services report True and
nothing else is present. -/
def allTrueSection : WindowsDefenderSection :=
  { emptySection with
    am_service_enabled := some true
    behavior_monitor_enabled := some true
    antispyware_enabled := some true
    antivirus_enabled := some true
    nis_enabled := some true
    realtime_protection_enabled := some true
    onaccess_protection_enabled := some true }

/-- Character-level model of the framework's sep(58) line split: split a
character list at every occurrence of the separator. -/
def splitOnChar (c : Char) : List Char → List (List Char)
  | [] => [[]]
  | x :: xs =>
    if x = c then [] :: splitOnChar c xs
    else
      match splitOnChar c xs with
      | [] => [[x]]
      | w :: ws => (x :: w) :: ws

/-- Rejoin fields with the separator character, the character-level
model of the parser's separator-join over line[1:]. -/
def joinWithChar (c : Char) : List (List Char) → List Char
  | [] => []
  | [w] => w
  | w :: ws => w ++ c :: joinWithChar c ws

/-! Helper lemmas shared by the claim theorems. -/

/-- Unfolding equation for one step of the format-trial loop. -/
theorem tryFormats_cons (now : Int) (f : Fmt) (rest : List Fmt) (s : List Char) :
    tryFormats now (f :: rest) s =
      match strptimeEpoch f s with
      | some t => if now - t ≥ -86400 then some (now - t) else tryFormats now rest s
      | none => tryFormats now rest s := rfl

/-- Every age returned by the format-trial loop is at least -86400. -/
theorem tryFormats_bound (now : Int) (fmts : List Fmt) (s : List Char) (a : Int)
    (h : tryFormats now fmts s = some a) : a ≥ -86400 := by
  induction fmts with
  | nil => simp [tryFormats] at h
  | cons f rest ih =>
    unfold tryFormats at h
    split at h
    next t heq =>
      split at h
      next hge => cases h; exact hge
      next hge => exact ih h
    next heq => exact ih h

/-- A split never produces the empty list of fields. -/
theorem splitOnChar_ne_nil (c : Char) (s : List Char) : splitOnChar c s ≠ [] := by
  induction s with
  | nil => simp [splitOnChar]
  | cons x xs ih =>
    unfold splitOnChar
    by_cases h : x = c
    · simp [h]
    · rw [if_neg h]
      cases hs : splitOnChar c xs <;> simp

/-- Rejoining the fields of a split reproduces the input. -/
theorem joinWithChar_splitOnChar (c : Char) (v : List Char) :
    joinWithChar c (splitOnChar c v) = v := by
  induction v with
  | nil => rfl
  | cons x xs ih =>
    unfold splitOnChar
    by_cases h : x = c
    · rw [if_pos h]
      cases hs : splitOnChar c xs with
      | nil => exact absurd hs (splitOnChar_ne_nil c xs)
      | cons w ws =>
        rw [hs] at ih
        simp [joinWithChar, h, ih]
    · rw [if_neg h]
      cases hs : splitOnChar c xs with
      | nil => exact absurd hs (splitOnChar_ne_nil c xs)
      | cons w ws =>
        rw [hs] at ih
        cases ws with
        | nil =>
          simp [joinWithChar] at ih ⊢
          exact ih
        | cons w2 ws2 =>
          simp [joinWithChar] at ih ⊢
          exact ih

/-- Splitting key SEP value with a separator-free key peels off the key
as the first field and leaves the value's own split intact. -/
theorem splitOnChar_key_head (c : Char) (key v : List Char) (h : c ∉ key) :
    splitOnChar c (key ++ c :: v) = key :: splitOnChar c v := by
  induction key with
  | nil => simp [splitOnChar]
  | cons k ks ih =>
    have hk : ¬(k = c) := fun e => h (by simp [e])
    have h2 : c ∉ ks := fun hm => h (List.mem_cons_of_mem _ hm)
    have step : splitOnChar c ((k :: ks) ++ c :: v) =
        if k = c then [] :: splitOnChar c (ks ++ c :: v)
        else
          match splitOnChar c (ks ++ c :: v) with
          | [] => [[k]]
          | w :: ws => (k :: w) :: ws := rfl
    rw [step, if_neg hk, ih h2]

/-- The parser collects a pair from no line exactly when every line has
fewer than two fields. -/
theorem rawPairs_nil_iff (t : List (List String)) :
    rawPairs t = [] ↔ ∀ l ∈ t, l.length < 2 := by
  induction t with
  | nil => simp [rawPairs]
  | cons l rest ih =>
    cases l with
    | nil =>
      simp only [rawPairs, List.filterMap_cons] at ih ⊢
      simpa using ih
    | cons k tl =>
      cases tl with
      | nil =>
        simp only [rawPairs, List.filterMap_cons] at ih ⊢
        simpa using ih
      | cons v tl2 =>
        simp [rawPairs, List.filterMap_cons]

/-- One service-loop step yields no finding exactly when it increments
no issue. -/
theorem checkOneService_nil_iff (p : Params) (k d : String) (v : Option Bool) :
    (checkOneService p k d v).1 = [] ↔ (checkOneService p k d v).2.1 = 0 := by
  cases v with
  | none => simp [checkOneService]
  | some b =>
    by_cases h : svcStateStr b ≠ expectedOf p k <;> simp [checkOneService, h]

/-- One service-loop step increments no issue exactly when the service
value is known and matches its expectation. -/
theorem checkOneService_zero_iff (p : Params) (k d : String) (v : Option Bool) :
    (checkOneService p k d v).2.1 = 0 ↔ svcConformsB p (k, d, v) = true := by
  cases v with
  | none => simp [checkOneService, svcConformsB]
  | some b =>
    by_cases h : svcStateStr b ≠ expectedOf p k
    · simp [checkOneService, svcConformsB, h]
    · simp [checkOneService, svcConformsB, h]
      tauto

/-- A conforming service contributes exactly its description to
ok_services. -/
theorem checkOneService_ok_list (p : Params) (k d : String) (v : Option Bool)
    (h : (checkOneService p k d v).2.1 = 0) : (checkOneService p k d v).2.2 = [d] := by
  cases v with
  | none => simp [checkOneService] at h
  | some b =>
    by_cases hm : svcStateStr b ≠ expectedOf p k
    · simp [checkOneService, hm] at h
    · simp [checkOneService, hm]

/-- The issues counter is zero exactly when the per-service findings
list is empty. -/
theorem ssIssues_zero_iff (params : Params) (sec : WindowsDefenderSection) :
    ssIssues params sec = 0 ↔ ssOuts params sec = [] := by
  simp only [ssIssues, ssOuts, List.append_eq_nil, Nat.add_eq_zero, checkOneService_nil_iff]

/-- With a zero issues counter every one of the seven services appended
its description, so the aggregate count is seven. -/
theorem ssOkServices_length_seven (params : Params) (sec : WindowsDefenderSection)
    (h : ssIssues params sec = 0) : (ssOkServices params sec).length = 7 := by
  unfold ssIssues at h
  have h1 := checkOneService_ok_list params "AMServiceEnabled" "AM Service" sec.am_service_enabled (by omega)
  have h2 := checkOneService_ok_list params "BehaviorMonitorEnabled" "Behavior Monitor" sec.behavior_monitor_enabled (by omega)
  have h3 := checkOneService_ok_list params "AntispywareEnabled" "Antispyware" sec.antispyware_enabled (by omega)
  have h4 := checkOneService_ok_list params "AntivirusEnabled" "Antivirus" sec.antivirus_enabled (by omega)
  have h5 := checkOneService_ok_list params "NISEnabled" "NIS" sec.nis_enabled (by omega)
  have h6 := checkOneService_ok_list params "RealTimeProtectionEnabled" "RealTimeProtection" sec.realtime_protection_enabled (by omega)
  have h7 := checkOneService_ok_list params "OnAccessProtectionEnabled" "OnAccessProtection" sec.onaccess_protection_enabled (by omega)
  simp [ssOkServices, h1, h2, h3, h4, h5, h6, h7]

/-! Claim theorems. -/

/-- C1: for every parsed age a and configured fixed pair (warn, crit) on
a signature-age check, the emitted finding is crit when a is at least
crit, warn when a is at least warn, ok otherwise (the boundary exactly
at a threshold triggers that severity), and a metric carrying the raw
age in seconds is emitted regardless of severity. -/
theorem signature_age_threshold_eval (params : Params) (now : Int)
    (key mname label ts : String) (a warn crit : Int)
    (hparse : parse_timestamp ts now (params.date_format.getD "eu") = some a)
    (hlev : params.getLevels key = some (.fixed warn crit)) :
    checkOneSignature params now key mname label (some ts) =
      [Output.result (if a ≥ crit then State.crit else if a ≥ warn then State.warn else State.ok)
         (Summary.levelsMessage (label ++ " age") a (some (warn, crit))),
       Output.metric mname a] := by
  have hne : ts ≠ "" := by
    intro he
    rw [he] at hparse
    simp [parse_timestamp] at hparse
  simp [checkOneSignature, ageOf, hne, hparse, check_levels, hlev, extract_levels_tuple]

/-- Witness for C1: the default antivirus levels (2d, 7d) applied to the
sample timestamp evaluated exactly three days later yield warn plus the
raw 259200-second metric. -/
theorem signature_age_threshold_eval_witness :
    checkOneSignature WINDOWS_DEFENDER_DEFAULT_LEVELS 1614551827 "AntivirusSignatureLastUpdated"
      "antivirus_sig_age" "AntiVirus signature" (some "25.02.2021 22:37:07") =
      [Output.result State.warn (Summary.levelsMessage "AntiVirus signature age" 259200 (some (172800, 604800))),
       Output.metric "antivirus_sig_age" 259200] := by
  have h := signature_age_threshold_eval WINDOWS_DEFENDER_DEFAULT_LEVELS 1614551827
    "AntivirusSignatureLastUpdated" "antivirus_sig_age" "AntiVirus signature"
    "25.02.2021 22:37:07" 259200 172800 604800 (by decide) (by decide)
  exact h.trans (by decide)

/-- C5: with a configured fixed threshold pair, a missing or unparseable
scan timestamp yields a crit finding whose message carries the
thresholds, together with a zero-valued metric for that scan type. -/
theorem scan_missing_timestamp_crit (params : Params) (now : Int)
    (key mname label : String) (ts : Option String) (warn crit : Int)
    (hlev : params.getLevels key = some (.fixed warn crit))
    (hage : ageOf ts now (params.date_format.getD "eu") = none) :
    checkOneScan params now key mname label ts =
      [Output.result State.crit (Summary.neverExecuted label warn crit),
       Output.metric mname 0] := by
  simp [checkOneScan, hlev, hage, extract_levels_tuple]

/-- Witness for C5: a configured full-scan threshold with an absent
timestamp yields the crit finding and the zero metric. -/
theorem scan_missing_timestamp_crit_witness :
    checkOneScan { emptyParams with full_scan_levels := some (.fixed 604800 1209600) } 0
      "FullScanEndTime" "full_scan_age" "Full Scan" none =
      [Output.result State.crit (Summary.neverExecuted "Full Scan" 604800 1209600),
       Output.metric "full_scan_age" 0] :=
  scan_missing_timestamp_crit _ 0 "FullScanEndTime" "full_scan_age" "Full Scan" none
    604800 1209600 (by decide) (by decide)

/-- C6: with no configured threshold for a scan type, the evaluator
emits zero findings and zero metrics for that scan type, whatever the
timestamp holds. -/
theorem scan_unconfigured_skipped (params : Params) (now : Int)
    (key mname label : String) (ts : Option String)
    (hlev : params.getLevels key = none) :
    checkOneScan params now key mname label ts = [] := by
  simp [checkOneScan, hlev]

/-- Witness for C6: an unconfigured quick scan with an arbitrarily old
parseable timestamp produces nothing. -/
theorem scan_unconfigured_skipped_witness :
    checkOneScan emptyParams 1614551827 "QuickScanEndTime" "quick_scan_age" "Quick Scan"
      (some "28.03.2019 12:13:06") = [] :=
  scan_unconfigured_skipped emptyParams 1614551827 "QuickScanEndTime" "quick_scan_age"
    "Quick Scan" (some "28.03.2019 12:13:06") (by decide)

/-- C7: a boolean field parses to true exactly for the literal "True"
and to false exactly for "False"; the empty string (the parser's stand-in
for an absent key) yields the distinct unknown state; and the service
evaluator turns an unknown value into an unknown finding, never folding
it into false or another severity. -/
theorem bool_tristate_strict (s : String) (params : Params) (key desc : String) :
    (parse_bool s = some true ↔ s = "True") ∧
    (parse_bool s = some false ↔ s = "False") ∧
    parse_bool "" = none ∧
    checkOneService params key desc none =
      ([Output.result State.unknown (Summary.serviceUnknown desc)], 1, []) := by
  refine ⟨?_, ?_, by decide, rfl⟩
  · unfold parse_bool
    by_cases h1 : s = "True"
    · simp [h1]
    · rw [if_neg h1]
      by_cases h2 : s = "False" <;> simp [h1, h2]
  · unfold parse_bool
    by_cases h1 : s = "True"
    · simp [h1]
    · rw [if_neg h1]
      by_cases h2 : s = "False" <;> simp [h1, h2]

/-- Witness for C7 at the concrete literals and a concrete unknown
service value. -/
theorem bool_tristate_strict_witness :
    parse_bool "True" = some true ∧ parse_bool "False" = some false ∧
    parse_bool "" = none ∧
    checkOneService WINDOWS_DEFENDER_DEFAULT_LEVELS "NISEnabled" "NIS" none =
      ([Output.result State.unknown (Summary.serviceUnknown "NIS")], 1, []) :=
  ⟨(bool_tristate_strict "True" emptyParams "k" "d").1.mpr rfl,
   (bool_tristate_strict "False" emptyParams "k" "d").2.1.mpr rfl,
   (bool_tristate_strict "x" emptyParams "k" "d").2.2.1,
   (bool_tristate_strict "x" WINDOWS_DEFENDER_DEFAULT_LEVELS "NISEnabled" "NIS").2.2.2⟩

/-- C8: splitting key SEP value on the separator and rejoining all
fields after the first with that separator reproduces the original
value exactly, even when the value itself contains the separator, so
the parser never truncates a value at its first separator occurrence. -/
theorem separator_split_rejoin (c : Char) (key v : List Char) (h : c ∉ key) :
    splitOnChar c (key ++ c :: v) = key :: splitOnChar c v ∧
    joinWithChar c (splitOnChar c v) = v :=
  ⟨splitOnChar_key_head c key v h, joinWithChar_splitOnChar c v⟩

/-- Witness for C8 on the sep(58) separator with a value that itself
contains a colon. -/
theorem separator_split_rejoin_witness :
    splitOnChar ':' ("QuickScanEndTime ".data ++ ':' :: " 28.03.2019 12:13:06".data) =
      "QuickScanEndTime ".data :: splitOnChar ':' " 28.03.2019 12:13:06".data ∧
    joinWithChar ':' (splitOnChar ':' " 28.03.2019 12:13:06".data) =
      " 28.03.2019 12:13:06".data :=
  separator_split_rejoin ':' "QuickScanEndTime ".data " 28.03.2019 12:13:06".data (by decide)

/-- C10: the parser skips every line with fewer than two fields, and
returns the no-data result exactly when no line in the input has at
least two fields (the empty input included); a snapshot is built
exactly when at least one key/value pair survives. -/
theorem parser_skip_and_no_data (string_table : List (List String))
    (line : List String) (rest : List (List String)) :
    (line.length < 2 → rawPairs (line :: rest) = rawPairs rest) ∧
    (parse_windows_defender string_table = none ↔ ∀ l ∈ string_table, l.length < 2) := by
  constructor
  · intro hlen
    cases line with
    | nil => simp [rawPairs, List.filterMap_cons]
    | cons k tl =>
      cases tl with
      | nil => simp [rawPairs, List.filterMap_cons]
      | cons v tl2 =>
        exact absurd hlen (by simp)
  · rw [← rawPairs_nil_iff]
    by_cases ht : string_table = []
    · subst ht
      simp [parse_windows_defender, rawPairs]
    · rw [parse_windows_defender, if_neg ht]
      by_cases hr : rawPairs string_table = [] <;> simp [hr]

/-- Witness for C10: a one-field line is skipped and yields no data;
adding a two-field line yields a snapshot. -/
theorem parser_skip_and_no_data_witness :
    rawPairs [["AMRunningMode"], ["NISEnabled", " False"]] = rawPairs [["NISEnabled", " False"]] ∧
    parse_windows_defender [["AMRunningMode"]] = none :=
  ⟨(parser_skip_and_no_data [] ["AMRunningMode"] [["NISEnabled", " False"]]).1 (by decide),
   (parser_skip_and_no_data [["AMRunningMode"]] [] []).2.mpr (by decide)⟩

/-- C2 counterexample: the string 02/01/2100 10:00:00 AM evaluated at
2100-01-16 10:00:00 parses under the first successfully matching eu
layout (m/d/Y with AM/PM; the dotted layout fails) to 2100-02-01, more
than one day in the future, yet the result is not a parse failure: the
d/m/Y AM/PM layout later in the list is accepted and the signature
sub-check emits crit with a metric, not unknown. -/
theorem future_reject_not_failure_cex :
    strptimeEpoch fmt_eu_dots (pyStrip "02/01/2100 10:00:00 AM".data) = none ∧
    strptimeEpoch fmt_us_ampm (pyStrip "02/01/2100 10:00:00 AM".data) = some 4105159200 ∧
    ((4103776800 : Int) - 4105159200 < -86400) ∧
    parse_timestamp "02/01/2100 10:00:00 AM" 4103776800 "eu" = some 1209600 ∧
    checkOneSignature WINDOWS_DEFENDER_DEFAULT_LEVELS 4103776800 "AntivirusSignatureLastUpdated"
      "antivirus_sig_age" "AntiVirus signature" (some "02/01/2100 10:00:00 AM") =
      [Output.result State.crit
         (Summary.levelsMessage "AntiVirus signature age" 1209600 (some (172800, 604800))),
       Output.metric "antivirus_sig_age" 1209600] :=
  ⟨by decide, by decide, by decide, by decide, by decide⟩

/-- C2 amended: a layout whose parse lies more than one day in the
future is skipped and the remaining layouts are still tried, rather
than the whole parse failing; a layout parse with age at least -86400
(up to one day in the future) is accepted with its possibly negative
age; and every age the parser returns is at least -86400, so unknown is
emitted exactly when no layout yields an acceptable age. -/
theorem future_window_skip (s2 : String) (now t a : Int) (df : String)
    (f : Fmt) (rest : List Fmt) (s : List Char) :
    (parse_timestamp s2 now df = some a → a ≥ -86400) ∧
    (strptimeEpoch f s = some t → now - t ≥ -86400 →
      tryFormats now (f :: rest) s = some (now - t)) ∧
    (strptimeEpoch f s = some t → now - t < -86400 →
      tryFormats now (f :: rest) s = tryFormats now rest s) := by
  refine ⟨?_, ?_, ?_⟩
  · intro h
    unfold parse_timestamp at h
    by_cases he : s2 = ""
    · rw [if_pos he] at h
      cases h
    · rw [if_neg he] at h
      exact tryFormats_bound now (DATE_FORMAT_CONFIGS df) (pyStrip s2.data) a h
  · intro hp hge
    rw [tryFormats_cons, hp]
    simp [hge]
  · intro hp hlt
    rw [tryFormats_cons, hp]
    simp only []
    rw [if_neg (not_le.mpr hlt)]

/-- Witness for C2 amended: the sample eu timestamp is accepted with
its exact age, and the bound holds of the returned age. -/
theorem future_window_skip_witness :
    ((259200 : Int) ≥ -86400) ∧
    tryFormats 1614551827 [fmt_eu_dots] "25.02.2021 22:37:07".data =
      some (1614551827 - 1614292627) :=
  ⟨(future_window_skip "25.02.2021 22:37:07" 1614551827 0 259200 "eu" fmt_eu_dots [] []).1
     (by decide),
   (future_window_skip "x" 1614551827 1614292627 0 "eu" fmt_eu_dots []
       "25.02.2021 22:37:07".data).2.1 (by decide) (by decide)⟩

/-- C3 counterexample: for 03/01/2100 09:00:00 AM under eu at
2100-02-01 09:00:00, the first layout that parses successfully is the
m/d/Y AM/PM layout (epoch 4107574800, 2100-03-01), but the value the
parser returns is not now minus that epoch: the result was determined
by the later d/m/Y AM/PM layout, so the first successful parse does not
determine the result. -/
theorem first_parse_not_binding_cex :
    strptimeEpoch fmt_eu_dots (pyStrip "03/01/2100 09:00:00 AM".data) = none ∧
    strptimeEpoch fmt_us_ampm (pyStrip "03/01/2100 09:00:00 AM".data) = some 4107574800 ∧
    parse_timestamp "03/01/2100 09:00:00 AM" 4105155600 "eu" = some 2505600 ∧
    ((2505600 : Int) ≠ 4105155600 - 4107574800) :=
  ⟨by decide, by decide, by decide, by decide⟩

/-- C3 amended: the candidate layouts are exactly the documented
ordered lists per family; they are tried in that order; the first
layout that parses successfully AND yields an age of at least -86400
determines the result (a successful parse beyond that bound is skipped
like a failure); and when no layout is accepted the result is unknown,
with no error raised. -/
theorem layout_lists_and_order (df : String) (s2 : String) (now t : Int)
    (f : Fmt) (rest : List Fmt) (s : List Char) :
    DATE_FORMAT_CONFIGS "eu" = [fmt_eu_dots, fmt_us_ampm, fmt_eu_slash, fmt_eu_slash_ampm] ∧
    DATE_FORMAT_CONFIGS "us" = [fmt_us_ampm, fmt_us_24h] ∧
    DATE_FORMAT_CONFIGS "iso" = [fmt_iso_space, fmt_iso_t] ∧
    (strptimeEpoch f s = none → tryFormats now (f :: rest) s = tryFormats now rest s) ∧
    (strptimeEpoch f s = some t → now - t ≥ -86400 →
      tryFormats now (f :: rest) s = some (now - t)) ∧
    tryFormats now ([] : List Fmt) s = none ∧
    (s2 ≠ "" → parse_timestamp s2 now df = tryFormats now (DATE_FORMAT_CONFIGS df) (pyStrip s2.data)) := by
  refine ⟨by decide, by decide, by decide, ?_, ?_, rfl, ?_⟩
  · intro hp
    rw [tryFormats_cons, hp]
  · intro hp hge
    rw [tryFormats_cons, hp]
    simp [hge]
  · intro hne
    unfold parse_timestamp
    rw [if_neg hne]

/-- Witness for C3 amended: a failing first layout hands over to the
rest of the list, and a non-empty string enters the format-trial loop
over its configured family. -/
theorem layout_lists_and_order_witness :
    tryFormats 5 (fmt_eu_dots :: [fmt_iso_space]) "2021-02-25 22:37:07".data =
      tryFormats 5 [fmt_iso_space] "2021-02-25 22:37:07".data ∧
    parse_timestamp "2021-02-25 22:37:07" 5 "iso" =
      tryFormats 5 (DATE_FORMAT_CONFIGS "iso") (pyStrip "2021-02-25 22:37:07".data) :=
  ⟨(layout_lists_and_order "iso" "x" 5 0 fmt_eu_dots [fmt_iso_space]
      "2021-02-25 22:37:07".data).2.2.2.1 (by decide),
   (layout_lists_and_order "iso" "2021-02-25 22:37:07" 5 0 fmt_eu_dots []
      []).2.2.2.2.2.2 (by decide)⟩

/-- C4 counterexample: with six services matching and one reporting an
unknown value, zero mismatch findings are emitted, yet the aggregate ok
finding is suppressed: every finding of the sub-check is the single
unknown one, so its suppression is not limited to mismatch findings. -/
theorem aggregate_suppressed_by_unknown_cex :
    check_service_states WINDOWS_DEFENDER_DEFAULT_LEVELS
        { allTrueSection with nis_enabled := none } =
      [Output.result State.unknown (Summary.serviceUnknown "NIS")] ∧
    ∀ o ∈ check_service_states WINDOWS_DEFENDER_DEFAULT_LEVELS
        { allTrueSection with nis_enabled := none },
      stateOf o = some State.unknown :=
  ⟨by decide, by decide⟩

/-- C4 amended: the aggregate ok finding (counting all seven services)
is emitted exactly when the per-service loop produced no finding at
all, which happens exactly when every service value is known and
matches its expectation; any mismatch finding or unknown finding
suppresses the aggregate. -/
theorem service_aggregate_exact (params : Params) (sec : WindowsDefenderSection) :
    check_service_states params sec =
      ssOuts params sec ++
        (if ssOuts params sec = []
         then [Output.result State.ok (Summary.allServicesOk 7)]
         else []) ∧
    (ssOuts params sec = [] ↔ ∀ tpl ∈ serviceTable sec, svcConformsB params tpl = true) := by
  constructor
  · unfold check_service_states
    by_cases h : ssIssues params sec = 0
    · rw [if_pos h, if_pos ((ssIssues_zero_iff params sec).mp h),
        ssOkServices_length_seven params sec h]
    · rw [if_neg h, if_neg (fun hc => h ((ssIssues_zero_iff params sec).mpr hc))]
  · rw [← ssIssues_zero_iff]
    simp only [ssIssues, Nat.add_eq_zero, checkOneService_zero_iff]
    simp [serviceTable]
    tauto

/-- Witness for C4 amended: with all seven services known and matching
the defaults, the sub-check emits exactly the aggregate ok finding. -/
theorem service_aggregate_exact_witness :
    check_service_states WINDOWS_DEFENDER_DEFAULT_LEVELS allTrueSection =
      [Output.result State.ok (Summary.allServicesOk 7)] :=
  ((service_aggregate_exact WINDOWS_DEFENDER_DEFAULT_LEVELS allTrueSection).1).trans (by decide)

/-- C9 counterexample: on a snapshot with no version or info fields the
version/info stage emits nothing at all, so the version/info summary is
not always emitted: the whole evaluation output is non-empty but every
finding in it is an unknown one from the earlier stages. -/
theorem version_info_not_always_cex :
    yield_version_info emptySection = [] ∧
    check_windows_defender emptyParams emptySection 0 ≠ [] ∧
    ∀ o ∈ check_windows_defender emptyParams emptySection 0,
      stateOf o = some State.unknown :=
  ⟨by decide, by decide, by decide⟩

/-- C9 amended: the evaluator's findings appear in the fixed order
signature ages, service states, scan ages, version/info summary; every
finding the version/info stage emits has ok severity, so it never
causes a non-ok verdict by itself; it is emitted (last) exactly when at
least one version or info field is present, and omitted otherwise. -/
theorem finding_order_version_ok (params : Params) (sec : WindowsDefenderSection) (now : Int) :
    check_windows_defender params sec now =
      check_signature_ages params sec now ++ check_service_states params sec
        ++ check_scan_ages params sec now ++ yield_version_info sec ∧
    (∀ o ∈ yield_version_info sec, ∃ s, o = Output.result State.ok s) ∧
    (yield_version_info sec = [] ↔ versionItems sec = [] ∧ infoItems sec = []) := by
  refine ⟨by simp [check_windows_defender], ?_, ?_⟩
  · intro o ho
    unfold yield_version_info at ho
    by_cases h1 : versionItems sec = [] <;> by_cases h2 : infoItems sec = [] <;>
      simp [h1, h2] at ho
    all_goals first
      | exact ⟨_, ho⟩
      | ((rcases ho with rfl | rfl) <;> exact ⟨_, rfl⟩)
  · unfold yield_version_info
    by_cases h1 : versionItems sec = [] <;> by_cases h2 : infoItems sec = [] <;>
      simp [h1, h2]

/-- Witness for C9 amended: the stage order instantiated on concrete
inputs, and the omission condition evaluated on the all-services
snapshot, which carries no version or info field. -/
theorem finding_order_version_ok_witness :
    check_windows_defender emptyParams allTrueSection 3 =
      check_signature_ages emptyParams allTrueSection 3
        ++ check_service_states emptyParams allTrueSection
        ++ check_scan_ages emptyParams allTrueSection 3
        ++ yield_version_info allTrueSection ∧
    (yield_version_info allTrueSection = [] ↔
      versionItems allTrueSection = [] ∧ infoItems allTrueSection = []) :=
  ⟨(finding_order_version_ok emptyParams allTrueSection 3).1,
   (finding_order_version_ok emptyParams allTrueSection 3).2.2⟩

end WindowsDefender
